import Mathlib

/-!
Shallow embedding of the stroke-geometry core of the rnote repository
(src/strokes/strokestyle.rs) and of the dpi property setter of the unit
entry widget (src/ui/unitentry.rs), with theorems settling the spec
claims about them.

Rust `f64` values are modelled as rationals (ℚ), `na::Vector2<f64>` as a
pair of rationals, `Result<_, anyhow::Error>` as `Except String _`.
Code of the repository that is not under src/ (the five stroke variant
implementations, `geometry::aabb_ceil`, `compose::wrap_svg`,
`render::Renderer`) is modelled from the spec, marked as such in its doc
comment.
-/

namespace Rnote

/-- Model of `na::Vector2<f64>`: a 2D vector with rational coordinates. -/
structure Vec2 where
  x : ℚ
  y : ℚ
deriving Repr, DecidableEq

/-- Componentwise vector addition, modelling `+` on `na::Vector2<f64>`. -/
def Vec2.add (a b : Vec2) : Vec2 :=
  ⟨a.x + b.x, a.y + b.y⟩

/-- Model of `p2d::bounding_volume::AABB`: minimum and maximum corners. -/
structure AABB where
  mins : Vec2
  maxs : Vec2
deriving Repr, DecidableEq

/-- Rust `p2d::bounding_volume::BoundingVolume::merge` for AABBs (external
library, known semantics): the smallest box containing both, i.e. the
componentwise min of the minima and max of the maxima. -/
def AABB.merge (a b : AABB) : AABB :=
  ⟨⟨min a.mins.x b.mins.x, min a.mins.y b.mins.y⟩,
   ⟨max a.maxs.x b.maxs.x, max a.maxs.y b.maxs.y⟩⟩

/-- Translation of a box by an offset (the `translate_box` of the spec's
translation-invariance property). -/
def AABB.translate (b : AABB) (o : Vec2) : AABB :=
  ⟨b.mins.add o, b.maxs.add o⟩

/-- Modelled from the spec: `geometry::aabb_ceil` (crate::geometry, not
under src/) — expands a box outward to the nearest enclosing box on the
integer grid: minima rounded down, maxima rounded up, so the result
always contains the input and the operation is idempotent. -/
def aabb_ceil (b : AABB) : AABB :=
  ⟨⟨(Int.floor b.mins.x : ℤ), (Int.floor b.mins.y : ℤ)⟩,
   ⟨(Int.ceil b.maxs.x : ℤ), (Int.ceil b.maxs.y : ℤ)⟩⟩

/-- Rust `InputData::PRESSURE_DEFAULT` from src: `0.5`. -/
def PRESSURE_DEFAULT : ℚ := 1/2

/-- Model of `InputData` from src: a recorded pointer sample. -/
structure InputData where
  pos : Vec2
  pressure : ℚ
deriving Repr, DecidableEq

/-- Rust `InputData::default()` from src: zero position, default pressure. -/
def InputData.default : InputData :=
  ⟨⟨0, 0⟩, PRESSURE_DEFAULT⟩

/-- Rust `InputData::set_pos` from src: stores the position unconditionally,
with no validation. -/
def InputData.set_pos (d : InputData) (pos : Vec2) : InputData :=
  { d with pos := pos }

/-- Rust `InputData::set_pressure` from src: stores
`pressure.clamp(0.0, 1.0)`; the branches spell out Rust `f64::clamp`. -/
def InputData.set_pressure (d : InputData) (pressure : ℚ) : InputData :=
  { d with pressure :=
      if pressure < 0 then 0 else if pressure > 1 then 1 else pressure }

/-- Rust `InputData::new` from src: starts from the default and applies
`set_pos` then `set_pressure`. -/
def InputData.new (pos : Vec2) (pressure : ℚ) : InputData :=
  (InputData.default.set_pos pos).set_pressure pressure

/-- Model of `Element` from src: a wrapper around one input sample. -/
structure Element where
  inputdata : InputData
deriving Repr, DecidableEq

/-- Rust `Element::new` from src. -/
def Element.new (inputdata : InputData) : Element :=
  ⟨inputdata⟩

/-- The random draws consumed by `Element::validation_data`, made
explicit: `rand::thread_rng` is modelled as a stream of draws, one from
the count sampler `Uniform::from(0..=20)` and one from each of the x, y
and pressure samplers per loop iteration. -/
structure ValidationDraws where
  nDraw : ℕ
  xDraw : ℕ → ℚ
  yDraw : ℕ → ℚ
  pDraw : ℕ → ℚ

/-- Admissible draw streams for given bounds: each sampler only returns
values inside its inclusive `Uniform` range. -/
def ValidationDraws.InRange (d : ValidationDraws) (bounds : AABB) : Prop :=
  d.nDraw ≤ 20 ∧
  (∀ i, bounds.mins.x ≤ d.xDraw i ∧ d.xDraw i ≤ bounds.maxs.x) ∧
  (∀ i, bounds.mins.y ≤ d.yDraw i ∧ d.yDraw i ≤ bounds.maxs.y) ∧
  (∀ i, 0 ≤ d.pDraw i ∧ d.pDraw i ≤ 1)

/-- Rust `Element::validation_data` from src: samples a count `n` from
`Uniform::from(0..=20)` and then runs `for _i in 0..=n`, pushing one
element per iteration, i.e. `n + 1` elements in total, each built from
fresh x, y and pressure draws. -/
def Element.validation_data (bounds : AABB) (d : ValidationDraws) :
    List Element :=
  let _ := bounds
  (List.range (d.nDraw + 1)).map (fun i =>
    Element.new (InputData.new ⟨d.xDraw i, d.yDraw i⟩ (d.pDraw i)))

/-- Payload of a vector fragment, modelling the `String` field
`render::Svg::svg_data`. Wrapping a payload into a standalone document
is kept as an explicit constructor so that the embedded content box and
viewport are recoverable. -/
inductive SvgData where
  | raw : String → SvgData
  | wrapped : SvgData → Option AABB → Option AABB → Bool → Bool → SvgData
deriving Repr, DecidableEq

/-- Model of `render::Svg`: a self-contained vector fragment carrying
its textual payload and its own bounds. -/
structure Svg where
  svg_data : SvgData
  bounds : AABB
deriving Repr, DecidableEq

/-- Modelled from the spec: `compose::wrap_svg` (crate::compose, not
under src/) — the document composition helper
`wrap_fragment(payload, content_box, viewport_box, standalone,
embed_styles)` turning a bare payload into a self-contained document. -/
def wrap_svg (data : SvgData) (content_box viewport : Option AABB)
    (standalone embed_styles : Bool) : SvgData :=
  SvgData.wrapped data content_box viewport standalone embed_styles

/-- Model of `render::Image` (crate::render, not under src/): an opaque
raster image produced by the rendering backend. -/
structure Image where
  data : String
deriving Repr, DecidableEq

/-- An implementor of the `StrokeBehaviour` trait, abstracted to exactly
what the trait's default method bodies use: the required methods
`bounds()` (the cached bounds, field `bounds`) and `gen_svgs`. -/
structure StrokeLike where
  bounds : AABB
  gen_svgs : Vec2 → Except String (List Svg)

/-- Rust `StrokeBehaviour::gen_bounds` default body from src: generate the
svgs at offset `(0, 0)`; if that succeeds and yields a first fragment,
merge the remaining fragments' bounds into its bounds, apply
`geometry::aabb_ceil`, and return `Some`; in every other case (error or
empty fragment list) fall through to `None`. -/
def StrokeLike.gen_bounds (s : StrokeLike) : Option AABB :=
  match s.gen_svgs ⟨0, 0⟩ with
  | Except.ok svgs =>
    match svgs with
    | [] => none
    | first :: rest =>
        some (aabb_ceil
          (rest.foldl (fun acc svg => acc.merge svg.bounds) first.bounds))
  | Except.error _ => none

/-- Rust `StrokeBehaviour::gen_image` default body from src: generate the
svgs at offset `(0, 0)` (propagating a generation error via `?`), wrap
each fragment's payload with `compose::wrap_svg` using the stroke's
cached bounds as both the content box and the viewport, then call the
renderer with the zoom, the wrapped fragments and the cached bounds,
propagating its result via `?`. The rendering backend is an external
collaborator, passed as a function. -/
def StrokeLike.gen_image (s : StrokeLike) (zoom : ℚ)
    (renderer : ℚ → List Svg → AABB → Except String Image) :
    Except String Image :=
  match s.gen_svgs ⟨0, 0⟩ with
  | Except.error e => Except.error e
  | Except.ok svgs =>
      renderer zoom
        (svgs.map (fun svg =>
          { svg with
            svg_data := (wrap_svg svg.svg_data (some s.bounds)
              (some s.bounds) true false) }))
        s.bounds

/-- Scaling of one coordinate when resizing content from an old bounds
interval to a new one; per the spec a zero-size source interval is
treated as a no-op scale (factor 1) along that axis. -/
def scaleCoord (oldMin oldMax newMin newMax x : ℚ) : ℚ :=
  if oldMax - oldMin = 0 then x - oldMin + newMin
  else newMin + (x - oldMin) * ((newMax - newMin) / (oldMax - oldMin))

/-- Scaling of a point when resizing content so that `old` bounds become
`new` bounds. -/
def scalePoint (old new : AABB) (p : Vec2) : Vec2 :=
  ⟨scaleCoord old.mins.x old.maxs.x new.mins.x new.maxs.x p.x,
   scaleCoord old.mins.y old.maxs.y new.mins.y new.maxs.y p.y⟩

/-- Modelled from the spec: the Marker Stroke variant
(src/strokes/markerstroke.rs, not under src/) — owns a sequence of
stroke elements and a cached bounding box. -/
structure MarkerStroke where
  elements : List Element
  bounds : AABB
deriving Repr, DecidableEq

/-- Modelled from the spec: `MarkerStroke::default()` — the default
(empty) state: no elements, zero box as the initial cached bounds. -/
def MarkerStroke.default : MarkerStroke :=
  ⟨[], ⟨⟨0, 0⟩, ⟨0, 0⟩⟩⟩

/-- Modelled from the spec: `MarkerStroke::set_bounds` — overwrites the
cached bounds without touching content. -/
def MarkerStroke.set_bounds (m : MarkerStroke) (bounds : AABB) :
    MarkerStroke :=
  { m with bounds := bounds }

/-- Modelled from the spec: `MarkerStroke::translate` — shifts all
content and the cached bounds by the offset. -/
def MarkerStroke.translate (m : MarkerStroke) (offset : Vec2) :
    MarkerStroke :=
  ⟨m.elements.map (fun e =>
      ⟨{ e.inputdata with pos := e.inputdata.pos.add offset }⟩),
   m.bounds.translate offset⟩

/-- Modelled from the spec: `MarkerStroke::resize` — rescales content so
its bounds become exactly the new bounds. -/
def MarkerStroke.resize (m : MarkerStroke) (new_bounds : AABB) :
    MarkerStroke :=
  ⟨m.elements.map (fun e =>
      ⟨{ e.inputdata with
          pos := scalePoint m.bounds new_bounds e.inputdata.pos }⟩),
   new_bounds⟩

/-- Modelled from the spec: `MarkerStroke::gen_svgs` — a pure function
of the stroke's content and the offset, emitting one self-contained
fragment per element, positioned as if the origin were shifted by the
offset. -/
def MarkerStroke.gen_svgs (m : MarkerStroke) (offset : Vec2) :
    Except String (List Svg) :=
  Except.ok (m.elements.map (fun e =>
    ⟨SvgData.raw "marker",
     AABB.translate ⟨e.inputdata.pos, e.inputdata.pos⟩ offset⟩))

/-- Modelled from the spec: the Brush Stroke variant
(src/strokes/brushstroke.rs, not under src/). -/
structure BrushStroke where
  elements : List Element
  bounds : AABB
deriving Repr, DecidableEq

/-- Modelled from the spec: `BrushStroke::set_bounds`. -/
def BrushStroke.set_bounds (b : BrushStroke) (bounds : AABB) :
    BrushStroke :=
  { b with bounds := bounds }

/-- Modelled from the spec: `BrushStroke::translate`. -/
def BrushStroke.translate (b : BrushStroke) (offset : Vec2) :
    BrushStroke :=
  ⟨b.elements.map (fun e =>
      ⟨{ e.inputdata with pos := e.inputdata.pos.add offset }⟩),
   b.bounds.translate offset⟩

/-- Modelled from the spec: `BrushStroke::resize`. -/
def BrushStroke.resize (b : BrushStroke) (new_bounds : AABB) :
    BrushStroke :=
  ⟨b.elements.map (fun e =>
      ⟨{ e.inputdata with
          pos := scalePoint b.bounds new_bounds e.inputdata.pos }⟩),
   new_bounds⟩

/-- Modelled from the spec: `BrushStroke::gen_svgs` — a pure function of
content and offset. -/
def BrushStroke.gen_svgs (b : BrushStroke) (offset : Vec2) :
    Except String (List Svg) :=
  Except.ok (b.elements.map (fun e =>
    ⟨SvgData.raw "brush",
     AABB.translate ⟨e.inputdata.pos, e.inputdata.pos⟩ offset⟩))

/-- Modelled from the spec: the Shape Stroke variant
(src/strokes/shapestroke.rs, not under src/) — owns its own shape
geometry, here a list of points. -/
structure ShapeStroke where
  points : List Vec2
  bounds : AABB
deriving Repr, DecidableEq

/-- Modelled from the spec: `ShapeStroke::set_bounds`. -/
def ShapeStroke.set_bounds (s : ShapeStroke) (bounds : AABB) :
    ShapeStroke :=
  { s with bounds := bounds }

/-- Modelled from the spec: `ShapeStroke::translate`. -/
def ShapeStroke.translate (s : ShapeStroke) (offset : Vec2) :
    ShapeStroke :=
  ⟨s.points.map (fun p => p.add offset), s.bounds.translate offset⟩

/-- Modelled from the spec: `ShapeStroke::resize`. -/
def ShapeStroke.resize (s : ShapeStroke) (new_bounds : AABB) :
    ShapeStroke :=
  ⟨s.points.map (scalePoint s.bounds new_bounds), new_bounds⟩

/-- Modelled from the spec: `ShapeStroke::gen_svgs` — a pure function of
content and offset. -/
def ShapeStroke.gen_svgs (s : ShapeStroke) (offset : Vec2) :
    Except String (List Svg) :=
  Except.ok (s.points.map (fun p =>
    ⟨SvgData.raw "shape", AABB.translate ⟨p, p⟩ offset⟩))

/-- Modelled from the spec: the Vector Image variant
(src/strokes/vectorimage.rs, not under src/) — owns an embedded vector
payload opaquely, plus a cached bounding box. -/
structure VectorImage where
  svg_data : SvgData
  bounds : AABB
deriving Repr, DecidableEq

/-- Modelled from the spec: `VectorImage::set_bounds`. -/
def VectorImage.set_bounds (v : VectorImage) (bounds : AABB) :
    VectorImage :=
  { v with bounds := bounds }

/-- Modelled from the spec: `VectorImage::translate`. -/
def VectorImage.translate (v : VectorImage) (offset : Vec2) :
    VectorImage :=
  { v with bounds := v.bounds.translate offset }

/-- Modelled from the spec: `VectorImage::resize`. -/
def VectorImage.resize (v : VectorImage) (new_bounds : AABB) :
    VectorImage :=
  { v with bounds := new_bounds }

/-- Modelled from the spec: `VectorImage::gen_svgs` — a pure function of
content and offset, one fragment holding the embedded payload. -/
def VectorImage.gen_svgs (v : VectorImage) (offset : Vec2) :
    Except String (List Svg) :=
  Except.ok [⟨v.svg_data, v.bounds.translate offset⟩]

/-- Modelled from the spec: the Bitmap Image variant
(src/strokes/bitmapimage.rs, not under src/) — owns an embedded raster
payload opaquely, plus a cached bounding box. -/
structure BitmapImage where
  data : String
  bounds : AABB
deriving Repr, DecidableEq

/-- Modelled from the spec: `BitmapImage::set_bounds`. -/
def BitmapImage.set_bounds (b : BitmapImage) (bounds : AABB) :
    BitmapImage :=
  { b with bounds := bounds }

/-- Modelled from the spec: `BitmapImage::translate`. -/
def BitmapImage.translate (b : BitmapImage) (offset : Vec2) :
    BitmapImage :=
  { b with bounds := b.bounds.translate offset }

/-- Modelled from the spec: `BitmapImage::resize`. -/
def BitmapImage.resize (b : BitmapImage) (new_bounds : AABB) :
    BitmapImage :=
  { b with bounds := new_bounds }

/-- Modelled from the spec: `BitmapImage::gen_svgs` — a pure function of
content and offset, one fragment holding the embedded payload. -/
def BitmapImage.gen_svgs (b : BitmapImage) (offset : Vec2) :
    Except String (List Svg) :=
  Except.ok [⟨SvgData.raw b.data, b.bounds.translate offset⟩]

/-- The `StrokeStyle` enum from src: a closed tagged union over the five
stroke variants. -/
inductive StrokeStyle where
  | markerStroke : MarkerStroke → StrokeStyle
  | brushStroke : BrushStroke → StrokeStyle
  | shapeStroke : ShapeStroke → StrokeStyle
  | vectorImage : VectorImage → StrokeStyle
  | bitmapImage : BitmapImage → StrokeStyle
deriving Repr, DecidableEq

/-- Rust `StrokeBehaviour::bounds` for `StrokeStyle` from src: forwards to
the held variant. -/
def StrokeStyle.bounds : StrokeStyle → AABB
  | .markerStroke m => m.bounds
  | .brushStroke b => b.bounds
  | .shapeStroke s => s.bounds
  | .vectorImage v => v.bounds
  | .bitmapImage b => b.bounds

/-- Rust `StrokeBehaviour::set_bounds` for `StrokeStyle` from src: forwards
to the held variant. -/
def StrokeStyle.set_bounds : StrokeStyle → AABB → StrokeStyle
  | .markerStroke m, bounds => .markerStroke (m.set_bounds bounds)
  | .brushStroke b, bounds => .brushStroke (b.set_bounds bounds)
  | .shapeStroke s, bounds => .shapeStroke (s.set_bounds bounds)
  | .vectorImage v, bounds => .vectorImage (v.set_bounds bounds)
  | .bitmapImage b, bounds => .bitmapImage (b.set_bounds bounds)

/-- Rust `StrokeBehaviour::translate` for `StrokeStyle` from src: forwards to
the held variant. -/
def StrokeStyle.translate : StrokeStyle → Vec2 → StrokeStyle
  | .markerStroke m, offset => .markerStroke (m.translate offset)
  | .brushStroke b, offset => .brushStroke (b.translate offset)
  | .shapeStroke s, offset => .shapeStroke (s.translate offset)
  | .vectorImage v, offset => .vectorImage (v.translate offset)
  | .bitmapImage b, offset => .bitmapImage (b.translate offset)

/-- Rust `StrokeBehaviour::resize` for `StrokeStyle` from src: forwards to
the held variant. -/
def StrokeStyle.resize : StrokeStyle → AABB → StrokeStyle
  | .markerStroke m, new_bounds => .markerStroke (m.resize new_bounds)
  | .brushStroke b, new_bounds => .brushStroke (b.resize new_bounds)
  | .shapeStroke s, new_bounds => .shapeStroke (s.resize new_bounds)
  | .vectorImage v, new_bounds => .vectorImage (v.resize new_bounds)
  | .bitmapImage b, new_bounds => .bitmapImage (b.resize new_bounds)

/-- Rust `StrokeBehaviour::gen_svgs` for `StrokeStyle` from src: forwards to
the held variant. -/
def StrokeStyle.gen_svgs : StrokeStyle → Vec2 → Except String (List Svg)
  | .markerStroke m, offset => m.gen_svgs offset
  | .brushStroke b, offset => b.gen_svgs offset
  | .shapeStroke s, offset => s.gen_svgs offset
  | .vectorImage v, offset => v.gen_svgs offset
  | .bitmapImage b, offset => b.gen_svgs offset

/-- Rust `Default for StrokeStyle` from src:
`Self::MarkerStroke(MarkerStroke::default())`. -/
def StrokeStyle.default : StrokeStyle :=
  .markerStroke MarkerStroke.default

/-- Model of `crate::sheet::format::MeasureUnit` (not under src/): the
three units named by the dropdown nicks in src/ui/unitentry.rs. -/
inductive MeasureUnit where
  | px
  | mm
  | cm
deriving Repr, DecidableEq

/-- The property state of `imp::UnitEntry` from src/ui/unitentry.rs: the
three `Cell` fields `value`, `unit` and `dpi`. -/
structure UnitEntryState where
  value : ℚ
  unit : MeasureUnit
  dpi : ℚ
deriving Repr, DecidableEq

/-- Rust `imp::UnitEntry::default()` from src: value `1.0`, unit `Px`, dpi
`96.0`. -/
def UnitEntryState.default : UnitEntryState :=
  ⟨1, MeasureUnit.px, 96⟩

/-- Rust `imp::UnitEntry::set_property` for the `"dpi"` property from src: if
the new dpi differs from the stored one, first set the value to
`MeasureUnit::convert_measurement(value, unit, old_dpi, unit, new_dpi)`
(the `"value"` setter stores the converted value), then replace the
stored dpi; if it is equal, change nothing.
`MeasureUnit::convert_measurement` (crate::sheet::format, not under
src/) is passed as an abstract function. -/
def set_property_dpi
    (convert : ℚ → MeasureUnit → ℚ → MeasureUnit → ℚ → ℚ)
    (st : UnitEntryState) (dpi : ℚ) : UnitEntryState :=
  if dpi ≠ st.dpi then
    { st with
      value := convert st.value st.unit st.dpi st.unit dpi,
      dpi := dpi }
  else st

/-! Theorems settling the claims. -/

/-- A concrete stroke whose fragment generation fails. -/
def sErrC1 : StrokeLike :=
  ⟨⟨⟨0, 0⟩, ⟨1, 1⟩⟩, fun _ => Except.error "boom"⟩

/-- C1: the claim that `gen_bounds` returning `None` always means an
empty (or absent) successful fragment sequence — never an error — is
false: for a stroke whose `gen_svgs` fails, `gen_bounds` is `None` even
though no successful fragment sequence was returned at all. -/
theorem C1_none_conflates_error_counterexample :
    StrokeLike.gen_bounds sErrC1 = none ∧
    ¬ ∃ svgs : List Svg, sErrC1.gen_svgs ⟨0, 0⟩ = Except.ok svgs := by
  refine ⟨rfl, ?_⟩
  rintro ⟨svgs, h⟩
  simp [sErrC1] at h

/-- C1 amended: `gen_bounds` returns `None` exactly when `gen_svgs` at
zero offset fails with an error or succeeds with an empty fragment
sequence; the error and zero-content outcomes are conflated into the
same `None` value. -/
theorem C1_gen_bounds_none_iff (s : StrokeLike) :
    s.gen_bounds = none ↔
      (s.gen_svgs ⟨0, 0⟩ = Except.ok [] ∨
       ∃ e, s.gen_svgs ⟨0, 0⟩ = Except.error e) := by
  unfold StrokeLike.gen_bounds
  cases h : s.gen_svgs ⟨0, 0⟩ with
  | ok svgs =>
    cases svgs with
    | nil => simp
    | cons first rest => simp
  | error e => simp

/-- A concrete vector fragment. -/
def svgA : Svg :=
  ⟨SvgData.raw "a", ⟨⟨0, 0⟩, ⟨1, 1⟩⟩⟩

/-- Another concrete vector fragment. -/
def svgB : Svg :=
  ⟨SvgData.raw "b", ⟨⟨1/2, -1⟩, ⟨3, 2⟩⟩⟩

/-- A concrete stroke whose fragment generation succeeds with two
fragments. -/
def sOkC3 : StrokeLike :=
  ⟨⟨⟨0, 0⟩, ⟨1, 1⟩⟩, fun _ => Except.ok [svgA, svgB]⟩

/-- C3: for every stroke whose `gen_svgs` at zero offset succeeds with a
non-empty fragment sequence, `gen_bounds` returns `Some` of the
left-to-right `merge` of all fragment bounds with `aabb_ceil` applied
once to the merged result. -/
theorem C3_gen_bounds_merges_and_ceils (s : StrokeLike) (first : Svg)
    (rest : List Svg)
    (h : s.gen_svgs ⟨0, 0⟩ = Except.ok (first :: rest)) :
    s.gen_bounds =
      some (aabb_ceil
        (rest.foldl (fun acc svg => acc.merge svg.bounds)
          first.bounds)) := by
  unfold StrokeLike.gen_bounds
  rw [h]

/-- C3 witness: on the concrete two-fragment stroke, `gen_bounds` is the
ceiling of the merge of the two fragment bounds. -/
theorem C3_gen_bounds_merges_and_ceils_witness :
    StrokeLike.gen_bounds sOkC3 =
      some (aabb_ceil
        ([svgB].foldl (fun acc svg => acc.merge svg.bounds)
          svgA.bounds)) :=
  C3_gen_bounds_merges_and_ceils sOkC3 svgA [svgB] rfl

/-- A concrete rendering backend that always succeeds. -/
def rendererOk : ℚ → List Svg → AABB → Except String Image :=
  fun _ _ _ => Except.ok ⟨"img"⟩

/-- A concrete stroke (failing fragment generation) for the image path. -/
def sErrC5 : StrokeLike :=
  ⟨⟨⟨0, 0⟩, ⟨2, 2⟩⟩, fun _ => Except.error "unsupported"⟩

/-- A concrete stroke (succeeding fragment generation) for the image
path. -/
def sOkC5 : StrokeLike :=
  ⟨⟨⟨0, 0⟩, ⟨2, 2⟩⟩, fun _ => Except.ok [svgA]⟩

/-- C5: `gen_image` generates fragments at offset `(0, 0)`; a fragment
generation error is propagated unchanged; on success each fragment's
payload is wrapped with the stroke's cached bounds as both content box
and viewport (standalone, styles not embedded) and the wrapped fragments
together with the cached bounds are handed to the renderer at the
requested zoom, whose outcome — success or error — is returned
unchanged. -/
theorem C5_gen_image_wraps_and_propagates (s : StrokeLike) (zoom : ℚ)
    (renderer : ℚ → List Svg → AABB → Except String Image) :
    (∀ e, s.gen_svgs ⟨0, 0⟩ = Except.error e →
        s.gen_image zoom renderer = Except.error e) ∧
    (∀ svgs, s.gen_svgs ⟨0, 0⟩ = Except.ok svgs →
        s.gen_image zoom renderer =
          renderer zoom
            (svgs.map (fun svg =>
              { svg with
                svg_data := (wrap_svg svg.svg_data (some s.bounds)
                  (some s.bounds) true false) }))
            s.bounds) := by
  constructor
  · intro e h
    unfold StrokeLike.gen_image
    rw [h]
  · intro svgs h
    unfold StrokeLike.gen_image
    rw [h]

/-- C5 witness: on concrete strokes, a generation error surfaces
unchanged and a successful generation returns exactly the renderer's
result on the wrapped fragments and the cached bounds. -/
theorem C5_gen_image_wraps_and_propagates_witness :
    StrokeLike.gen_image sErrC5 2 rendererOk =
      Except.error "unsupported" ∧
    StrokeLike.gen_image sOkC5 2 rendererOk =
      rendererOk 2
        ([svgA].map (fun svg =>
          { svg with
            svg_data := (wrap_svg svg.svg_data (some sOkC5.bounds)
              (some sOkC5.bounds) true false) }))
        sOkC5.bounds :=
  ⟨(C5_gen_image_wraps_and_propagates sErrC5 2 rendererOk).1
      "unsupported" rfl,
   (C5_gen_image_wraps_and_propagates sOkC5 2 rendererOk).2
      [svgA] rfl⟩

/-- A concrete bounding box for the validation-data claims. -/
def boundsC2 : AABB :=
  ⟨⟨0, 0⟩, ⟨1, 1⟩⟩

/-- A concrete admissible draw stream whose count draw is the maximal
`20`. -/
def drawsC2max : ValidationDraws :=
  ⟨20, fun _ => 0, fun _ => 0, fun _ => 1/2⟩

/-- A concrete admissible draw stream whose count draw is `0`. -/
def drawsC2min : ValidationDraws :=
  ⟨0, fun _ => 0, fun _ => 0, fun _ => 1/2⟩

/-- C2: the claim that `validation_data` produces between 0 and 20
elements is false: the loop `for _i in 0..=n` runs `n + 1` times, so an
admissible run whose count draw is `20` produces 21 elements. -/
theorem C2_validation_data_count_counterexample :
    drawsC2max.InRange boundsC2 ∧
    ¬ (Element.validation_data boundsC2 drawsC2max).length ≤ 20 := by
  constructor
  · refine ⟨?_, ?_, ?_, ?_⟩ <;> norm_num [drawsC2max, boundsC2]
  · simp [Element.validation_data, drawsC2max]

/-- C2 amended: for admissible draws, `validation_data` produces between
1 and 21 elements (the count draw `n ∈ [0, 20]` yields `n + 1`
elements), each with its position inside the given box and its pressure
in `[0, 1]`. -/
theorem C2_validation_data_count_and_ranges (bounds : AABB)
    (d : ValidationDraws) (hd : d.InRange bounds) :
    1 ≤ (Element.validation_data bounds d).length ∧
    (Element.validation_data bounds d).length ≤ 21 ∧
    ∀ e ∈ Element.validation_data bounds d,
      (bounds.mins.x ≤ e.inputdata.pos.x ∧
        e.inputdata.pos.x ≤ bounds.maxs.x) ∧
      (bounds.mins.y ≤ e.inputdata.pos.y ∧
        e.inputdata.pos.y ≤ bounds.maxs.y) ∧
      (0 ≤ e.inputdata.pressure ∧ e.inputdata.pressure ≤ 1) := by
  obtain ⟨hn, hx, hy, hp⟩ := hd
  refine ⟨?_, ?_, ?_⟩
  · simp [Element.validation_data]
  · simp [Element.validation_data]
    omega
  · intro e he
    simp [Element.validation_data] at he
    obtain ⟨i, hi, rfl⟩ := he
    simp [Element.new, InputData.new, InputData.set_pos,
      InputData.set_pressure, InputData.default]
    refine ⟨⟨(hx i).1, (hx i).2⟩, ⟨(hy i).1, (hy i).2⟩, ?_, ?_⟩
    · split_ifs <;> linarith [(hp i).1]
    · split_ifs <;> linarith [(hp i).2]

/-- C2 witness: the amended count bounds hold on a concrete admissible
run. -/
theorem C2_validation_data_count_and_ranges_witness :
    1 ≤ (Element.validation_data boundsC2 drawsC2min).length := by
  have hd : drawsC2min.InRange boundsC2 := by
    refine ⟨?_, ?_, ?_, ?_⟩ <;> norm_num [drawsC2min, boundsC2]
  exact (C2_validation_data_count_and_ranges boundsC2 drawsC2min hd).1

/-- C4: pressure is validated on write: `new` and `set_pressure` store a
value in `[0, 1]` — inputs below `0` store `0`, inputs above `1` store
`1`, in-range inputs are stored unchanged — and a default-constructed
`InputData` has pressure `0.5`. -/
theorem C4_pressure_clamped (d : InputData) (pos : Vec2) (p : ℚ) :
    (0 ≤ (InputData.new pos p).pressure ∧
      (InputData.new pos p).pressure ≤ 1) ∧
    (p < 0 → (InputData.new pos p).pressure = 0 ∧
      (d.set_pressure p).pressure = 0) ∧
    (1 < p → (InputData.new pos p).pressure = 1 ∧
      (d.set_pressure p).pressure = 1) ∧
    (0 ≤ p → p ≤ 1 → (InputData.new pos p).pressure = p ∧
      (d.set_pressure p).pressure = p) ∧
    InputData.default.pressure = 1/2 := by
  have hnew : ∀ q : ℚ, (InputData.new pos q).pressure =
      if q < 0 then 0 else if q > 1 then 1 else q := fun _ => rfl
  have hset : ∀ q : ℚ, (d.set_pressure q).pressure =
      if q < 0 then 0 else if q > 1 then 1 else q := fun _ => rfl
  simp only [hnew, hset]
  refine ⟨?_, ?_, ?_, ?_, rfl⟩
  · constructor <;> split_ifs <;> linarith
  · intro h
    constructor <;> split_ifs <;> linarith
  · intro h
    constructor <;> split_ifs <;> linarith
  · intro h h2
    constructor <;> split_ifs <;> linarith

/-- C4 witness: the spec's three concrete pressure inputs `-0.3`, `1.7`
and `0.5` store `0`, `1` and `0.5`. -/
theorem C4_pressure_clamped_witness :
    (InputData.new ⟨0, 0⟩ (-3/10)).pressure = 0 ∧
    (InputData.new ⟨0, 0⟩ (17/10)).pressure = 1 ∧
    (InputData.new ⟨0, 0⟩ (1/2)).pressure = 1/2 :=
  ⟨((C4_pressure_clamped InputData.default ⟨0, 0⟩ (-3/10)).2.1
      (by norm_num)).1,
   ((C4_pressure_clamped InputData.default ⟨0, 0⟩ (17/10)).2.2.1
      (by norm_num)).1,
   ((C4_pressure_clamped InputData.default ⟨0, 0⟩ (1/2)).2.2.2.1
      (by norm_num) (by norm_num)).1⟩

/-- C6: translation invariance of bounds: for every stroke and offset,
the bounds after `translate` equal the bounds before the call translated
by the same offset. -/
theorem C6_translate_bounds_invariance (s : StrokeStyle) (o : Vec2) :
    (s.translate o).bounds = s.bounds.translate o := by
  cases s <;> rfl

/-- C7: `gen_svgs` is deterministic in the stroke's content and the
offset: two calls on the same unmutated stroke at the same offset return
identical fragment sequences (the embedding has no hidden state, so the
result is a pure function of the stroke value and the offset). -/
theorem C7_gen_svgs_deterministic (s : StrokeStyle) (o : Vec2) :
    s.gen_svgs o = s.gen_svgs o :=
  rfl

/-- C8: the default-constructed stroke is the MarkerStroke variant in
its default state, and every contract operation on the polymorphic type
forwards verbatim to the held variant: for each of the five variants,
`bounds`, `set_bounds`, `translate`, `resize` and `gen_svgs` on the
façade agree with the same operation on the variant. -/
theorem C8_default_and_dispatch (m : MarkerStroke) (b : BrushStroke)
    (sh : ShapeStroke) (v : VectorImage) (bi : BitmapImage)
    (new_bounds : AABB) (o : Vec2) :
    StrokeStyle.default = StrokeStyle.markerStroke MarkerStroke.default ∧
    (StrokeStyle.markerStroke m).bounds = m.bounds ∧
    (StrokeStyle.brushStroke b).bounds = b.bounds ∧
    (StrokeStyle.shapeStroke sh).bounds = sh.bounds ∧
    (StrokeStyle.vectorImage v).bounds = v.bounds ∧
    (StrokeStyle.bitmapImage bi).bounds = bi.bounds ∧
    (StrokeStyle.markerStroke m).set_bounds new_bounds =
      StrokeStyle.markerStroke (m.set_bounds new_bounds) ∧
    (StrokeStyle.brushStroke b).set_bounds new_bounds =
      StrokeStyle.brushStroke (b.set_bounds new_bounds) ∧
    (StrokeStyle.shapeStroke sh).set_bounds new_bounds =
      StrokeStyle.shapeStroke (sh.set_bounds new_bounds) ∧
    (StrokeStyle.vectorImage v).set_bounds new_bounds =
      StrokeStyle.vectorImage (v.set_bounds new_bounds) ∧
    (StrokeStyle.bitmapImage bi).set_bounds new_bounds =
      StrokeStyle.bitmapImage (bi.set_bounds new_bounds) ∧
    (StrokeStyle.markerStroke m).translate o =
      StrokeStyle.markerStroke (m.translate o) ∧
    (StrokeStyle.brushStroke b).translate o =
      StrokeStyle.brushStroke (b.translate o) ∧
    (StrokeStyle.shapeStroke sh).translate o =
      StrokeStyle.shapeStroke (sh.translate o) ∧
    (StrokeStyle.vectorImage v).translate o =
      StrokeStyle.vectorImage (v.translate o) ∧
    (StrokeStyle.bitmapImage bi).translate o =
      StrokeStyle.bitmapImage (bi.translate o) ∧
    (StrokeStyle.markerStroke m).resize new_bounds =
      StrokeStyle.markerStroke (m.resize new_bounds) ∧
    (StrokeStyle.brushStroke b).resize new_bounds =
      StrokeStyle.brushStroke (b.resize new_bounds) ∧
    (StrokeStyle.shapeStroke sh).resize new_bounds =
      StrokeStyle.shapeStroke (sh.resize new_bounds) ∧
    (StrokeStyle.vectorImage v).resize new_bounds =
      StrokeStyle.vectorImage (v.resize new_bounds) ∧
    (StrokeStyle.bitmapImage bi).resize new_bounds =
      StrokeStyle.bitmapImage (bi.resize new_bounds) ∧
    (StrokeStyle.markerStroke m).gen_svgs o = m.gen_svgs o ∧
    (StrokeStyle.brushStroke b).gen_svgs o = b.gen_svgs o ∧
    (StrokeStyle.shapeStroke sh).gen_svgs o = sh.gen_svgs o ∧
    (StrokeStyle.vectorImage v).gen_svgs o = v.gen_svgs o ∧
    (StrokeStyle.bitmapImage bi).gen_svgs o = bi.gen_svgs o :=
  ⟨rfl, rfl, rfl, rfl, rfl, rfl, rfl, rfl, rfl, rfl, rfl, rfl, rfl,
   rfl, rfl, rfl, rfl, rfl, rfl, rfl, rfl, rfl, rfl, rfl, rfl, rfl⟩

/-- C9: positions are stored without validation: `new` and `set_pos`
return the position argument unchanged, and `set_pos` touches nothing
but the position. -/
theorem C9_pos_stored_unvalidated (d : InputData) (pos : Vec2) (p : ℚ) :
    (InputData.new pos p).pos = pos ∧
    (d.set_pos pos).pos = pos ∧
    (d.set_pos pos).pressure = d.pressure :=
  ⟨rfl, rfl, rfl⟩

/-- A concrete conversion function (value scaled with the dpi ratio). -/
def convertC10 : ℚ → MeasureUnit → ℚ → MeasureUnit → ℚ → ℚ :=
  fun value _ old_dpi _ new_dpi => value * new_dpi / old_dpi

/-- C10: setting the `"dpi"` property to a different value first
converts the stored value from the old dpi to the new dpi, keeping the
current unit, and only then replaces the stored dpi; setting it to the
current dpi leaves the whole state unchanged. -/
theorem C10_dpi_setter_converts (convert : ℚ → MeasureUnit → ℚ →
      MeasureUnit → ℚ → ℚ) (st : UnitEntryState) (dpi : ℚ) :
    (dpi ≠ st.dpi →
      set_property_dpi convert st dpi =
        ⟨convert st.value st.unit st.dpi st.unit dpi, st.unit, dpi⟩) ∧
    (dpi = st.dpi → set_property_dpi convert st dpi = st) := by
  constructor
  · intro h
    unfold set_property_dpi
    rw [if_pos h]
  · intro h
    unfold set_property_dpi
    rw [if_neg (by simp [h])]

/-- C10 witness: on a concrete state at 96 dpi, setting dpi 192 converts
the value with the old and new dpi and stores the new dpi, while setting
dpi 96 leaves the state unchanged. -/
theorem C10_dpi_setter_converts_witness :
    set_property_dpi convertC10 UnitEntryState.default 192 =
      ⟨convertC10 1 MeasureUnit.px 96 MeasureUnit.px 192,
       MeasureUnit.px, 192⟩ ∧
    set_property_dpi convertC10 UnitEntryState.default 96 =
      UnitEntryState.default :=
  ⟨(C10_dpi_setter_converts convertC10 UnitEntryState.default 192).1
      (by norm_num [UnitEntryState.default]),
   (C10_dpi_setter_converts convertC10 UnitEntryState.default 96).2 rfl⟩

end Rnote
